import Mathlib

/-!
# Shallow embedding of the Stock Alert System alerting engine

This file embeds the alerting engine of the Stock_Alert_System repository:

* `checkRowV1`  — the per-entry body of `check_prices` in `appv1bk.py`
  (symmetric crossing policy on `alert_price` and `target_price`);
* `checkRowApp` — the per-entry body of `check_prices` in `app.py`
  (symmetric crossing policy plus one-shot alert trigger time, status column
  and the 3% proximity pre-alert / pre-target bands);
* `checkRowV20` — the per-entry body of `check_prices` in `shedular.py` and
  `app6.py` (one-shot cooldown policy with creation guard);
* `v20Range`    — the V20 momentum-run detector of `get_stock_data` in
  `shedular.py` / `app6.py`.

Prices, thresholds and timestamps are modelled as rationals; Python float
literals such as `0.01` and `0.03` become the exact rationals `1/100` and
`3/100`.  SQL `NULL` text columns become `Option` values.  A Python
exception that is caught by the per-entry `try/except` and leaves the row
unchanged is modelled by returning the row unchanged with no events.
-/

namespace StockAlert

/-- Notification event kinds emitted by the evaluators. -/
inductive Event where
  | alert
  | target
  | preAlert
  | preTarget
  | buyAlert
  | sellAlert
  deriving DecidableEq, Repr

/-- The symmetric crossing condition of `appv1bk.py` lines 168–170 /
`app.py` lines 393–395: the current price is at or past the threshold and
strictly further past it than the last notified price. -/
abbrev crossed (threshold last current : ℚ) : Prop :=
  (current ≤ threshold ∧ current < last) ∨ (threshold ≤ current ∧ last < current)

/-! ## appv1bk.py — plain symmetric crossing policy -/

/-- One row of the `stocks` table as read by `check_prices` in `appv1bk.py`. -/
structure RowV1 where
  alert_price : ℚ
  target_price : ℚ
  last_notified_alert : ℚ
  last_notified_target : ℚ
  deriving DecidableEq, Repr

/-- Alert firing condition, `appv1bk.py` lines 168–170. -/
def alertCondV1 (row : RowV1) (cp : ℚ) : Prop :=
  0 < row.alert_price ∧ crossed row.alert_price row.last_notified_alert cp

instance (row : RowV1) (cp : ℚ) : Decidable (alertCondV1 row cp) :=
  inferInstanceAs (Decidable (0 < row.alert_price ∧ _))

/-- Target firing condition, `appv1bk.py` lines 180–182. -/
def targetCondV1 (row : RowV1) (cp : ℚ) : Prop :=
  0 < row.target_price ∧ crossed row.target_price row.last_notified_target cp

instance (row : RowV1) (cp : ℚ) : Decidable (targetCondV1 row cp) :=
  inferInstanceAs (Decidable (0 < row.target_price ∧ _))

/-- Per-entry body of `check_prices` in `appv1bk.py` (lines 167–189):
check the alert price, then the target price, each against the values of
the row as loaded at the start of the tick; on fire the corresponding
`last_notified_*` column is set to the current price. -/
def checkRowV1 (row : RowV1) (cp : ℚ) : RowV1 × List Event :=
  let s1 :=
    if alertCondV1 row cp then
      ({ row with last_notified_alert := cp }, [Event.alert])
    else (row, ([] : List Event))
  if targetCondV1 row cp then
    ({ s1.1 with last_notified_target := cp }, s1.2 ++ [Event.target])
  else s1

/-! ## app.py — symmetric crossing with one-shot alert, status and bands -/

/-- One row of the `stocks` table as read by `check_prices` in `app.py`.
`alert_trigger_time`, `target_trigger_time` and `added_time` are nullable
text timestamps, modelled as `Option ℚ`; `status` is the literal text
stored in the `status` column. -/
structure RowApp where
  alert_price : ℚ
  target_price : ℚ
  last_notified_alert : ℚ
  last_notified_target : ℚ
  last_notified_pre_alert : ℚ
  last_notified_pre_target : ℚ
  alert_trigger_time : Option ℚ
  target_trigger_time : Option ℚ
  status : String
  added_time : Option ℚ
  deriving DecidableEq, Repr

/-- Alert firing condition of `app.py` lines 393–395: additionally to the
symmetric crossing it requires `alert_trigger_time` to still be NULL. -/
def alertCondApp (row : RowApp) (cp : ℚ) : Prop :=
  0 < row.alert_price ∧ row.alert_trigger_time = none ∧
    crossed row.alert_price row.last_notified_alert cp

instance (row : RowApp) (cp : ℚ) : Decidable (alertCondApp row cp) :=
  inferInstanceAs (Decidable (0 < row.alert_price ∧ _ ∧ _))

/-- Target firing condition of `app.py` lines 406–408 (note: it does not
read the `status` column). -/
def targetCondApp (row : RowApp) (cp : ℚ) : Prop :=
  0 < row.target_price ∧ crossed row.target_price row.last_notified_target cp

instance (row : RowApp) (cp : ℚ) : Decidable (targetCondApp row cp) :=
  inferInstanceAs (Decidable (0 < row.target_price ∧ _))

/-- Pre-alert condition of `app.py` lines 419–424: current price within the
3% band around `alert_price` and different from the stored marker. -/
def preAlertCond (row : RowApp) (cp : ℚ) : Prop :=
  0 < row.alert_price ∧
    row.alert_price - row.alert_price * (3 / 100) ≤ cp ∧
    cp ≤ row.alert_price + row.alert_price * (3 / 100) ∧
    cp ≠ row.last_notified_pre_alert

instance (row : RowApp) (cp : ℚ) : Decidable (preAlertCond row cp) :=
  inferInstanceAs (Decidable (0 < row.alert_price ∧ _ ∧ _ ∧ _))

/-- Pre-target condition of `app.py` lines 434–439. -/
def preTargetCond (row : RowApp) (cp : ℚ) : Prop :=
  0 < row.target_price ∧
    row.target_price - row.target_price * (3 / 100) ≤ cp ∧
    cp ≤ row.target_price + row.target_price * (3 / 100) ∧
    cp ≠ row.last_notified_pre_target

instance (row : RowApp) (cp : ℚ) : Decidable (preTargetCond row cp) :=
  inferInstanceAs (Decidable (0 < row.target_price ∧ _ ∧ _ ∧ _))

/-- Per-entry body of `check_prices` in `app.py` (lines 378–447).
`added_time` falls back to the current time when NULL (line 386), and no
check runs unless the current time is strictly after it (line 389).  The
four checks run in sequence; every condition reads the fields of the row
as loaded at the start of the tick (the Python code reads the pandas
snapshot `row`, not the freshly written database values), and the written
columns of the four branches are pairwise disjoint. -/
def checkRowApp (row : RowApp) (cp ct : ℚ) : RowApp × List Event :=
  if ct ≤ row.added_time.getD ct then (row, [])
  else
    let s1 :=
      if alertCondApp row cp then
        ({ row with last_notified_alert := cp, alert_trigger_time := some ct },
          [Event.alert])
      else (row, ([] : List Event))
    let s2 :=
      if targetCondApp row cp then
        ({ s1.1 with
            last_notified_target := cp
            target_trigger_time := some ct
            status := "Closed" }, s1.2 ++ [Event.target])
      else s1
    let s3 :=
      if preAlertCond row cp then
        ({ s2.1 with last_notified_pre_alert := cp }, s2.2 ++ [Event.preAlert])
      else s2
    if preTargetCond row cp then
      ({ s3.1 with last_notified_pre_target := cp }, s3.2 ++ [Event.preTarget])
    else s3

/-! ## shedular.py / app6.py — one-shot cooldown policy -/

/-- One row of the `stocks` table as read by `check_prices` in
`shedular.py` / `app6.py`.  `alert_triggered` is the 0/1 integer column,
modelled as `Bool`; the `last_notified_*` columns hold epoch timestamps. -/
structure RowV20 where
  alert_price : ℚ
  target_price : ℚ
  alert_triggered : Bool
  last_notified_alert : ℚ
  last_notified_target : ℚ
  created_at : ℚ
  notification_cooldown : ℚ
  deriving DecidableEq, Repr

/-- Buy-alert firing condition, `shedular.py` lines 176–178: entry not yet
triggered, cooldown elapsed since the last alert notification (or since
creation when none fired yet), and price at or below `alert_price + 0.01`. -/
def buyCond (row : RowV20) (cp ct : ℚ) : Prop :=
  0 < row.alert_price ∧ row.alert_triggered = false ∧
    row.notification_cooldown ≤
      ct - (if 0 < row.last_notified_alert then row.last_notified_alert
            else row.created_at) ∧
    cp ≤ row.alert_price + 1 / 100

instance (row : RowV20) (cp ct : ℚ) : Decidable (buyCond row cp ct) :=
  inferInstanceAs (Decidable (0 < row.alert_price ∧ _ ∧ _ ∧ _))

/-- Sell-alert firing condition, `shedular.py` lines 188–190: entry already
triggered, cooldown elapsed since the last target notification (or since
creation), and price at or above `target_price - 0.01`. -/
def sellCond (row : RowV20) (cp ct : ℚ) : Prop :=
  0 < row.target_price ∧ row.alert_triggered = true ∧
    row.notification_cooldown ≤
      ct - (if 0 < row.last_notified_target then row.last_notified_target
            else row.created_at) ∧
    row.target_price - 1 / 100 ≤ cp

instance (row : RowV20) (cp ct : ℚ) : Decidable (sellCond row cp ct) :=
  inferInstanceAs (Decidable (0 < row.target_price ∧ _ ∧ _ ∧ _))

/-- The buy and sell checks of `check_prices` in `shedular.py` lines
176–198.  Both conditions read the row snapshot loaded at the start of the
tick, so a buy alert fired in this tick does not enable the sell check of
the same tick. -/
def checkRowV20Body (row : RowV20) (cp ct : ℚ) : RowV20 × List Event :=
  let row1 :=
    if buyCond row cp ct then
      { row with alert_triggered := true, last_notified_alert := ct }
    else row
  let row2 :=
    if sellCond row cp ct then { row1 with last_notified_target := ct }
    else row1
  (row2,
    (if buyCond row cp ct then [Event.buyAlert] else []) ++
      (if sellCond row cp ct then [Event.sellAlert] else []))

/-- Per-entry body of `check_prices` in `shedular.py` (lines 166–198) /
`app6.py` (lines 355–390).  Within 60 seconds of creation, while not yet
triggered, a price within 1% of the alert price suppresses all checks for
this tick (`continue`).  Computing `abs(cp - alert_price)/alert_price`
with `alert_price = 0` raises `ZeroDivisionError` in Python; the exception
is caught by the per-entry handler, which likewise skips the entry with no
state mutation, so that path also returns the row unchanged. -/
def checkRowV20 (row : RowV20) (cp ct : ℚ) : RowV20 × List Event :=
  if ct - row.created_at < 60 ∧ row.alert_triggered = false then
    if row.alert_price = 0 then (row, [])
    else if |cp - row.alert_price| / row.alert_price ≤ 1 / 100 then (row, [])
    else checkRowV20Body row cp ct
  else checkRowV20Body row cp ct

/-- The creation-guard condition as one predicate.  In rational arithmetic
`|cp - 0| / 0 = 0 ≤ 1/100`, so this single predicate also covers the
`alert_price = 0` exception path of the code, which equally leaves the
row unchanged. -/
def creationGuard (row : RowV20) (cp ct : ℚ) : Prop :=
  ct - row.created_at < 60 ∧ row.alert_triggered = false ∧
    |cp - row.alert_price| / row.alert_price ≤ 1 / 100

instance (row : RowV20) (cp ct : ℚ) : Decidable (creationGuard row cp ct) :=
  inferInstanceAs (Decidable (_ ∧ _ ∧ _))

/-- One entry of a tick together with the quote fetched for it; `none`
models `current_price is None` (quote unavailable). -/
def checkEntryV20 (e : RowV20 × Option ℚ) (ct : ℚ) : RowV20 × List Event :=
  match e.2 with
  | none => (e.1, [])
  | some cp => checkRowV20 e.1 cp ct

/-- A whole tick of `check_prices` in `shedular.py` over the list of
enabled rows, each paired with the outcome of its quote fetch.  Each entry
is processed by the total function `checkEntryV20`; a failure outcome for
one entry leaves its row unchanged and has no effect on the others. -/
def tickV20 (entries : List (RowV20 × Option ℚ)) (ct : ℚ) :
    List (RowV20 × List Event) :=
  entries.map (fun e => checkEntryV20 e ct)

/-! ## V20 momentum-run detector (`get_stock_data` in shedular.py / app6.py) -/

/-- One daily OHLC candle of the fetched history. -/
structure Candle where
  Open : ℚ
  High : ℚ
  Low : ℚ
  Close : ℚ
  deriving DecidableEq, Repr

/-- Default candle used for out-of-range history accesses (the loops below
only ever index within bounds). -/
def cdef : Candle := ⟨0, 0, 0, 0⟩

/-- Green candle: `Close > Open` (`shedular.py` line 101). -/
abbrev isBullish (c : Candle) : Prop := c.Open < c.Close

/-- Red candle: `Close < Open` (`shedular.py` line 108). -/
abbrev isBearish (c : Candle) : Prop := c.Close < c.Open

/-- The momentum-broken check of `shedular.py` lines 106–110: some candle
with index `k` in `range(j+1, i+1)` is red. -/
def momentumBroken (hist : List Candle) (j i : ℕ) : Prop :=
  ∃ k ∈ List.range' (j + 1) (i - j), isBearish (hist.getD k cdef)

instance (hist : List Candle) (j i : ℕ) : Decidable (momentumBroken hist j i) :=
  inferInstanceAs (Decidable (∃ k ∈ List.range' (j + 1) (i - j), _))

/-- Acceptance condition of the inner loop (`shedular.py` lines 104–111):
`gain_percent >= 20` and momentum not broken. -/
def v20Cond (hist : List Candle) (j i : ℕ) : Prop :=
  20 ≤ ((hist.getD i cdef).High - (hist.getD j cdef).Low) /
      (hist.getD j cdef).Low * 100 ∧ ¬ momentumBroken hist j i

instance (hist : List Candle) (j i : ℕ) : Decidable (v20Cond hist j i) :=
  inferInstanceAs (Decidable (_ ∧ _))

/-- The inner loop of `shedular.py` lines 102–113: `j` runs from `i-1` down
to `0` (the argument is `j+1`, so `innerScan hist i i` starts at `j = i-1`);
the first `j` whose gain reaches 20% with unbroken momentum yields
`(low_j, high_i)`. -/
def innerScan (hist : List Candle) (i : ℕ) : ℕ → Option (ℚ × ℚ)
  | 0 => none
  | j + 1 =>
    if v20Cond hist j i then
      some ((hist.getD j cdef).Low, (hist.getD i cdef).High)
    else innerScan hist i j

/-- The outer loop of `shedular.py` lines 99–115: `i` runs from the newest
candle down to the oldest; for each green candle the inner scan runs, and
the first hit is returned. -/
def outerScan (hist : List Candle) : ℕ → Option (ℚ × ℚ)
  | 0 => none
  | i + 1 =>
    if isBullish (hist.getD i cdef) then
      match innerScan hist i i with
      | some r => some r
      | none => outerScan hist i
    else outerScan hist i

/-- The V20 range computation of `get_stock_data` (`shedular.py` lines
98–115, `app6.py` lines 110–127): the value of `v20_range` after the scan,
`none` when no pair qualified. -/
def v20Range (hist : List Candle) : Option (ℚ × ℚ) :=
  outerScan hist hist.length

/-- Modelled from the spec: the inner widening of the reference first-found
search, written with the spec's wording — gain ratio
`(high_i - low_j) / low_j ≥ 0.20` and no candle strictly between `j` and
`i` bearish. -/
def v20CondSpec (hist : List Candle) (j i : ℕ) : Prop :=
  1 / 5 ≤ ((hist.getD i cdef).High - (hist.getD j cdef).Low) /
      (hist.getD j cdef).Low ∧
    ∀ k, k < i → j < k → ¬ isBearish (hist.getD k cdef)

instance (hist : List Candle) (j i : ℕ) : Decidable (v20CondSpec hist j i) :=
  inferInstanceAs (Decidable (_ ∧ ∀ k, k < i → _))

def innerScanSpec (hist : List Candle) (i : ℕ) : ℕ → Option (ℚ × ℚ)
  | 0 => none
  | j + 1 =>
    if v20CondSpec hist j i then
      some ((hist.getD j cdef).Low, (hist.getD i cdef).High)
    else innerScanSpec hist i j

/-- Modelled from the spec: the reference first-found search — scan candles
from newest to oldest for a bullish candle `i`, then widen `j` backward
from `i-1`, returning the first qualifying `(low_j, high_i)` immediately. -/
def outerScanSpec (hist : List Candle) : ℕ → Option (ℚ × ℚ)
  | 0 => none
  | i + 1 =>
    if isBullish (hist.getD i cdef) then
      match innerScanSpec hist i i with
      | some r => some r
      | none => outerScanSpec hist i
    else outerScanSpec hist i

/-- Modelled from the spec: the reference first-found search over the whole
series. -/
def v20RangeSpec (hist : List Candle) : Option (ℚ × ℚ) :=
  outerScanSpec hist hist.length

/-- A pair `(j, i)` qualifies for the V20 range: `i` in bounds and bullish,
`j` strictly before `i`, gain from `low_j` to `high_i` at least 20%, and no
candle strictly between them bearish. -/
def qualifies (hist : List Candle) (j i : ℕ) : Prop :=
  j < i ∧ i < hist.length ∧ isBullish (hist.getD i cdef) ∧
    1 / 5 ≤ ((hist.getD i cdef).High - (hist.getD j cdef).Low) /
      (hist.getD j cdef).Low ∧
    ∀ k, k < i → j < k → ¬ isBearish (hist.getD k cdef)

/-! ## Scenario entries used by the claims -/

/-- Fresh `app.py` entry with `alert_price = 100`, `target_price = 120`,
`status = Open`, added at time `0`. -/
def rowC1 : RowApp := ⟨100, 120, 0, 0, 0, 0, none, none, "Open", some 0⟩

/-- Fresh `app.py` entry with `alert_price = 100` and no target, for the
proximity-band scenario. -/
def rowC6 : RowApp := ⟨100, 0, 0, 0, 0, 0, none, none, "Open", some 0⟩

/-- Fresh `appv1bk.py` entry with `alert_price = 100`,
`last_notified_alert = 0`. -/
def rowC7 : RowV1 := ⟨100, 0, 0, 0⟩

/-- Cooldown-policy entry created at `t0 = 0` with `alert_price = 50`,
`target_price = 60` and `cooldown = 600`. -/
def rowC4 : RowV20 := ⟨50, 60, false, 0, 0, 0, 600⟩

/-- Cooldown-policy entry with `alert_price = 0`. -/
def rowC4zero : RowV20 := ⟨0, 0, false, 0, 0, 0, 600⟩

/-- Cooldown-policy entry whose alert price (50) lies above its target
price (49), so one price can satisfy both the buy and the sell bound. -/
def rowC8 : RowV20 := ⟨50, 49, false, 0, 0, 0, 600⟩

/-! ## Characterization lemmas for the three evaluators -/

theorem checkRowV1_eq (row : RowV1) (cp : ℚ) :
    checkRowV1 row cp =
      ({ row with
          last_notified_alert :=
            if alertCondV1 row cp then cp else row.last_notified_alert
          last_notified_target :=
            if targetCondV1 row cp then cp else row.last_notified_target },
        (if alertCondV1 row cp then [Event.alert] else []) ++
          (if targetCondV1 row cp then [Event.target] else [])) := by
  unfold checkRowV1
  dsimp only
  split_ifs <;> rfl

theorem checkRowApp_skip (row : RowApp) (cp ct : ℚ)
    (h : ct ≤ row.added_time.getD ct) : checkRowApp row cp ct = (row, []) := by
  unfold checkRowApp
  rw [if_pos h]

theorem checkRowApp_eq (row : RowApp) (cp ct : ℚ)
    (h : row.added_time.getD ct < ct) :
    checkRowApp row cp ct =
      ({ row with
          last_notified_alert :=
            if alertCondApp row cp then cp else row.last_notified_alert
          alert_trigger_time :=
            if alertCondApp row cp then some ct else row.alert_trigger_time
          last_notified_target :=
            if targetCondApp row cp then cp else row.last_notified_target
          target_trigger_time :=
            if targetCondApp row cp then some ct else row.target_trigger_time
          status := if targetCondApp row cp then "Closed" else row.status
          last_notified_pre_alert :=
            if preAlertCond row cp then cp else row.last_notified_pre_alert
          last_notified_pre_target :=
            if preTargetCond row cp then cp else row.last_notified_pre_target },
        (if alertCondApp row cp then [Event.alert] else []) ++
          (if targetCondApp row cp then [Event.target] else []) ++
          (if preAlertCond row cp then [Event.preAlert] else []) ++
          (if preTargetCond row cp then [Event.preTarget] else [])) := by
  unfold checkRowApp
  rw [if_neg (not_le.mpr h)]
  dsimp only
  split_ifs <;> rfl

theorem checkRowV20Body_eq (row : RowV20) (cp ct : ℚ) :
    checkRowV20Body row cp ct =
      ({ row with
          alert_triggered :=
            if buyCond row cp ct then true else row.alert_triggered
          last_notified_alert :=
            if buyCond row cp ct then ct else row.last_notified_alert
          last_notified_target :=
            if sellCond row cp ct then ct else row.last_notified_target },
        (if buyCond row cp ct then [Event.buyAlert] else []) ++
          (if sellCond row cp ct then [Event.sellAlert] else [])) := by
  unfold checkRowV20Body
  dsimp only
  split_ifs <;> rfl

theorem checkRowV20_eq (row : RowV20) (cp ct : ℚ) :
    checkRowV20 row cp ct =
      if creationGuard row cp ct then (row, [])
      else checkRowV20Body row cp ct := by
  unfold checkRowV20 creationGuard
  by_cases hA : ct - row.created_at < 60 ∧ row.alert_triggered = false
  · by_cases h0 : row.alert_price = 0
    · have hr : |cp - row.alert_price| / row.alert_price ≤ 1 / 100 := by
        rw [h0]
        norm_num
      rw [if_pos hA, if_pos h0, if_pos ⟨hA.1, hA.2, hr⟩]
    · by_cases hr : |cp - row.alert_price| / row.alert_price ≤ 1 / 100
      · rw [if_pos hA, if_neg h0, if_pos hr, if_pos ⟨hA.1, hA.2, hr⟩]
      · rw [if_pos hA, if_neg h0, if_neg hr,
          if_neg (fun hg => hr hg.2.2)]
  · rw [if_neg hA, if_neg (fun hg => hA ⟨hg.1, hg.2.1⟩)]

/-! ## Event membership lemmas -/

theorem mem_checkRowV1_alert (row : RowV1) (cp : ℚ) :
    Event.alert ∈ (checkRowV1 row cp).2 ↔ alertCondV1 row cp := by
  rw [checkRowV1_eq]
  split_ifs <;> simp_all

theorem mem_checkRowV1_target (row : RowV1) (cp : ℚ) :
    Event.target ∈ (checkRowV1 row cp).2 ↔ targetCondV1 row cp := by
  rw [checkRowV1_eq]
  split_ifs <;> simp_all

theorem mem_checkRowApp_iff (row : RowApp) (cp ct : ℚ) (ev : Event) :
    ev ∈ (checkRowApp row cp ct).2 ↔
      row.added_time.getD ct < ct ∧
        ((ev = Event.alert ∧ alertCondApp row cp) ∨
          (ev = Event.target ∧ targetCondApp row cp) ∨
          (ev = Event.preAlert ∧ preAlertCond row cp) ∨
          (ev = Event.preTarget ∧ preTargetCond row cp)) := by
  by_cases h : ct ≤ row.added_time.getD ct
  · rw [checkRowApp_skip row cp ct h]
    simp only [List.not_mem_nil, false_iff, not_and]
    intro h1
    exact absurd h1 (not_lt.mpr h)
  · push_neg at h
    rw [checkRowApp_eq row cp ct h]
    simp only [h, true_and]
    split_ifs <;> cases ev <;> simp_all

theorem mem_checkRowV20_buy (row : RowV20) (cp ct : ℚ) :
    Event.buyAlert ∈ (checkRowV20 row cp ct).2 ↔
      ¬ creationGuard row cp ct ∧ buyCond row cp ct := by
  rw [checkRowV20_eq]
  split_ifs with hg
  · simp [hg]
  · rw [checkRowV20Body_eq]
    simp only [hg, not_false_iff, true_and]
    split_ifs <;> simp_all

theorem mem_checkRowV20_sell (row : RowV20) (cp ct : ℚ) :
    Event.sellAlert ∈ (checkRowV20 row cp ct).2 ↔
      ¬ creationGuard row cp ct ∧ sellCond row cp ct := by
  rw [checkRowV20_eq]
  split_ifs with hg
  · simp [hg]
  · rw [checkRowV20Body_eq]
    simp only [hg, not_false_iff, true_and]
    split_ifs <;> simp_all

/-! ## V20 detector lemmas -/

theorem gain_scale_iff (x : ℚ) : 20 ≤ x * 100 ↔ 1 / 5 ≤ x := by
  constructor <;> intro h <;> linarith

/-- With `i` bullish and `j < i`, the code's momentum check over
`range(j+1, i+1)` agrees with the spec's "no candle strictly between `j`
and `i` is bearish" (the code's range also inspects candle `i` itself, but
`i` is bullish, hence not bearish). -/
theorem not_momentumBroken_iff (hist : List Candle) (j i : ℕ) (hj : j < i)
    (hb : isBullish (hist.getD i cdef)) :
    ¬ momentumBroken hist j i ↔
      ∀ k, k < i → j < k → ¬ isBearish (hist.getD k cdef) := by
  unfold momentumBroken
  constructor
  · intro h k hk hjk hbear
    exact h ⟨k, List.mem_range'_1.mpr ⟨hjk, by omega⟩, hbear⟩
  · rintro h ⟨k, hk, hbear⟩
    obtain ⟨hk1, hk2⟩ := List.mem_range'_1.mp hk
    rcases eq_or_lt_of_le (show k ≤ i by omega) with rfl | hlt
    · exact absurd hbear (lt_asymm hb)
    · exact h k hlt (by omega) hbear

theorem v20Cond_iff_spec (hist : List Candle) (j i : ℕ) (hj : j < i)
    (hb : isBullish (hist.getD i cdef)) :
    v20Cond hist j i ↔ v20CondSpec hist j i :=
  and_congr (gain_scale_iff _) (not_momentumBroken_iff hist j i hj hb)

theorem innerScan_eq_spec (hist : List Candle) (i : ℕ)
    (hb : isBullish (hist.getD i cdef)) :
    ∀ m, m ≤ i → innerScan hist i m = innerScanSpec hist i m := by
  intro m
  induction m with
  | zero => intro _; rfl
  | succ j ih =>
    intro hm
    have hj : j < i := hm
    unfold innerScan innerScanSpec
    exact if_congr (v20Cond_iff_spec hist j i hj hb) rfl (ih (Nat.le_of_lt hj))

theorem outerScan_eq_spec (hist : List Candle) :
    ∀ n, outerScan hist n = outerScanSpec hist n := by
  intro n
  induction n with
  | zero => rfl
  | succ i ih =>
    unfold outerScan outerScanSpec
    by_cases hb : isBullish (hist.getD i cdef)
    · rw [if_pos hb, if_pos hb, innerScan_eq_spec hist i hb i (Nat.le_refl i), ih]
    · rw [if_neg hb, if_neg hb, ih]

theorem innerScan_eq_none_iff (hist : List Candle) (i : ℕ) :
    ∀ m, (innerScan hist i m = none ↔ ∀ j, j < m → ¬ v20Cond hist j i) := by
  intro m
  induction m with
  | zero =>
    simp only [innerScan, true_iff]
    exact fun j hj => absurd hj (Nat.not_lt_zero j)
  | succ j ih =>
    unfold innerScan
    by_cases hc : v20Cond hist j i
    · rw [if_pos hc]
      constructor
      · intro h
        exact Option.noConfusion h
      · intro h
        exact absurd hc (h j (Nat.lt_succ_self j))
    · rw [if_neg hc, ih]
      constructor
      · intro h k hk
        rcases Nat.lt_succ_iff_lt_or_eq.mp hk with h1 | rfl
        · exact h k h1
        · exact hc
      · intro h k hk
        exact h k (Nat.lt_succ_of_lt hk)

theorem outerScan_eq_none_iff (hist : List Candle) :
    ∀ n, (outerScan hist n = none ↔
      ∀ i, i < n → isBullish (hist.getD i cdef) → innerScan hist i i = none) := by
  intro n
  induction n with
  | zero =>
    simp only [outerScan, true_iff]
    exact fun i hi => absurd hi (Nat.not_lt_zero i)
  | succ i ih =>
    unfold outerScan
    by_cases hb : isBullish (hist.getD i cdef)
    · rw [if_pos hb]
      cases hinner : innerScan hist i i with
      | some r =>
        simp only [reduceCtorEq, false_iff, not_forall]
        exact ⟨i, Nat.lt_succ_self i, hb, by rw [hinner]; exact fun h => Option.noConfusion h⟩
      | none =>
        rw [ih]
        constructor
        · intro h k hk hbk
          rcases Nat.lt_succ_iff_lt_or_eq.mp hk with h1 | rfl
          · exact h k h1 hbk
          · exact hinner
        · intro h k hk hbk
          exact h k (Nat.lt_succ_of_lt hk) hbk
    · rw [if_neg hb, ih]
      constructor
      · intro h k hk hbk
        rcases Nat.lt_succ_iff_lt_or_eq.mp hk with h1 | rfl
        · exact h k h1 hbk
        · exact absurd hbk hb
      · intro h k hk hbk
        exact h k (Nat.lt_succ_of_lt hk) hbk

theorem v20Range_eq_none_iff (hist : List Candle) :
    v20Range hist = none ↔ ∀ j i, ¬ qualifies hist j i := by
  unfold v20Range
  rw [outerScan_eq_none_iff]
  constructor
  · intro h j i hq
    obtain ⟨hji, hlen, hb, hgain, hclean⟩ := hq
    have h2 := h i hlen hb
    rw [innerScan_eq_none_iff] at h2
    exact h2 j hji
      ⟨(gain_scale_iff _).mpr hgain,
        (not_momentumBroken_iff hist j i hji hb).mpr hclean⟩
  · intro h i hi hb
    rw [innerScan_eq_none_iff]
    intro j hj hcond
    exact h j i
      ⟨hj, hi, hb, (gain_scale_iff _).mp hcond.1,
        (not_momentumBroken_iff hist j i hj hb).mp hcond.2⟩

/-! ## Claims -/

/-- C3.  The momentum-run detector of `get_stock_data` equals the reference
first-found search written from the spec's words (newest bullish `i` first,
`j` widening backward, immediate return of the first pair whose gain
reaches 20% with no bearish candle strictly between), and it returns `none`
exactly when the series is empty, contains no bullish candle, or no
qualifying pair exists. -/
theorem claim_C3 (hist : List Candle) :
    v20Range hist = v20RangeSpec hist ∧
      (v20Range hist = none ↔
        hist = [] ∨ (∀ c ∈ hist, ¬ isBullish c) ∨ ∀ j i, ¬ qualifies hist j i) := by
  refine ⟨outerScan_eq_spec hist hist.length, ?_⟩
  rw [v20Range_eq_none_iff]
  constructor
  · intro h
    exact Or.inr (Or.inr h)
  · rintro (rfl | hnb | h)
    · intro j i hq
      exact absurd hq.2.1 (Nat.not_lt_zero i)
    · intro j i hq
      refine hnb (hist.getD i cdef) ?_ hq.2.2.1
      rw [List.getD_eq_getElem hist cdef hq.2.1]
      exact List.getElem_mem hq.2.1
    · exact h

/-- C2 counterexample.  For an entry with `alert_price = 0` the claimed
firing condition holds at `current = 5` (`current ≥ threshold` and
`current > lastNotifiedPrice`), yet the code fires nothing, because the
alert branch additionally requires `alert_price > 0`. -/
theorem claim_C2_counterexample :
    crossed 0 0 5 ∧ (checkRowV1 ⟨0, 0, 0, 0⟩ 5).2 = [] := by
  refine ⟨Or.inr ⟨by norm_num, by norm_num⟩, ?_⟩
  norm_num [checkRowV1, alertCondV1, targetCondV1]

/-- C2 amended.  In the `appv1bk.py` evaluator a threshold notification
fires exactly when the threshold is positive and
`(current ≤ threshold ∧ current < lastNotified) ∨
(current ≥ threshold ∧ current > lastNotified)`; on fire the corresponding
last-notified price becomes the current price, otherwise it is unchanged. -/
theorem claim_C2_amended (row : RowV1) (cp : ℚ) :
    (Event.alert ∈ (checkRowV1 row cp).2 ↔
        0 < row.alert_price ∧ crossed row.alert_price row.last_notified_alert cp) ∧
    (Event.target ∈ (checkRowV1 row cp).2 ↔
        0 < row.target_price ∧ crossed row.target_price row.last_notified_target cp) ∧
    (Event.alert ∈ (checkRowV1 row cp).2 →
      (checkRowV1 row cp).1.last_notified_alert = cp) ∧
    (Event.alert ∉ (checkRowV1 row cp).2 →
      (checkRowV1 row cp).1.last_notified_alert = row.last_notified_alert) ∧
    (Event.target ∈ (checkRowV1 row cp).2 →
      (checkRowV1 row cp).1.last_notified_target = cp) ∧
    (Event.target ∉ (checkRowV1 row cp).2 →
      (checkRowV1 row cp).1.last_notified_target = row.last_notified_target) := by
  refine ⟨mem_checkRowV1_alert row cp, mem_checkRowV1_target row cp, ?_, ?_, ?_, ?_⟩
  · intro h
    rw [mem_checkRowV1_alert] at h
    rw [checkRowV1_eq]
    simp [h]
  · intro h
    rw [mem_checkRowV1_alert] at h
    rw [checkRowV1_eq]
    simp [h]
  · intro h
    rw [mem_checkRowV1_target] at h
    rw [checkRowV1_eq]
    simp [h]
  · intro h
    rw [mem_checkRowV1_target] at h
    rw [checkRowV1_eq]
    simp [h]

/-- C2 witness: concrete instantiation of the amended claim. -/
theorem claim_C2_witness :
    (checkRowV1 ⟨100, 0, 0, 7⟩ 105).1.last_notified_alert = 105 ∧
    (checkRowV1 ⟨100, 0, 0, 7⟩ 105).1.last_notified_target = 7 :=
  ⟨(claim_C2_amended ⟨100, 0, 0, 7⟩ 105).2.2.1
      (by rw [mem_checkRowV1_alert]; exact ⟨by norm_num, Or.inr ⟨by norm_num, by norm_num⟩⟩),
    (claim_C2_amended ⟨100, 0, 0, 7⟩ 105).2.2.2.2.2
      (by rw [mem_checkRowV1_target]; rintro ⟨h, -⟩; exact absurd h (by norm_num))⟩

/-- C7 counterexample.  With `alert_price = 100`, `last_notified_alert = 0`
the sequence `[105, 95, 90]` does not fire only on the first tick: the
second tick at 95 fires again (`95 ≤ 100` and `95 < 105`). -/
theorem claim_C7_counterexample :
    (checkRowV1 rowC7 105).2 = [Event.alert] ∧
    (checkRowV1 (checkRowV1 rowC7 105).1 95).2 = [Event.alert] := by
  constructor <;>
    norm_num [checkRowV1, alertCondV1, targetCondV1, crossed, rowC7]

/-- C7 amended.  In the `appv1bk.py` evaluator the sequence `[105, 95, 90]`
fires an alert on every tick, since each price crosses strictly further
past the threshold in its direction of movement; the policy refrains from
re-firing only while the price stays on the same side of the threshold
without moving strictly past the last notified price. -/
theorem claim_C7_amended :
    (checkRowV1 rowC7 105).2 = [Event.alert] ∧
    (checkRowV1 (checkRowV1 rowC7 105).1 95).2 = [Event.alert] ∧
    (checkRowV1 (checkRowV1 (checkRowV1 rowC7 105).1 95).1 90).2 = [Event.alert] ∧
    (∀ (row : RowV1) (cp : ℚ), row.alert_price < row.last_notified_alert →
      row.alert_price < cp → cp ≤ row.last_notified_alert →
      Event.alert ∉ (checkRowV1 row cp).2) ∧
    (∀ (row : RowV1) (cp : ℚ), row.last_notified_alert < row.alert_price →
      row.last_notified_alert ≤ cp → cp < row.alert_price →
      Event.alert ∉ (checkRowV1 row cp).2) := by
  refine ⟨?_, ?_, ?_, ?_, ?_⟩
  · norm_num [checkRowV1, alertCondV1, targetCondV1, crossed, rowC7]
  · norm_num [checkRowV1, alertCondV1, targetCondV1, crossed, rowC7]
  · norm_num [checkRowV1, alertCondV1, targetCondV1, crossed, rowC7]
  · intro row cp h1 h2 h3 hmem
    rw [mem_checkRowV1_alert] at hmem
    rcases hmem.2 with ⟨ha, hb⟩ | ⟨ha, hb⟩ <;> linarith
  · intro row cp h1 h2 h3 hmem
    rw [mem_checkRowV1_alert] at hmem
    rcases hmem.2 with ⟨ha, hb⟩ | ⟨ha, hb⟩ <;> linarith

/-- C7 witness: concrete instantiation of the monotonic no-re-fire parts of
the amended claim. -/
theorem claim_C7_witness :
    Event.alert ∉ (checkRowV1 ⟨100, 0, 105, 0⟩ 101).2 ∧
    Event.alert ∉ (checkRowV1 ⟨100, 0, 95, 0⟩ 99).2 :=
  ⟨claim_C7_amended.2.2.2.1 ⟨100, 0, 105, 0⟩ 101 (by norm_num) (by norm_num)
      (by norm_num),
    claim_C7_amended.2.2.2.2 ⟨100, 0, 95, 0⟩ 99 (by norm_num) (by norm_num)
      (by norm_num)⟩

/-- C9.  Per-entry failure isolation in the scheduler tick of
`shedular.py`: an entry whose quote fetch fails is mapped to its unchanged
row with no events, and its presence does not disturb the evaluation of the
entries before or after it. -/
theorem claim_C9 (xs ys : List (RowV20 × Option ℚ)) (row : RowV20) (ct : ℚ) :
    checkEntryV20 (row, none) ct = (row, []) ∧
    tickV20 (xs ++ (row, none) :: ys) ct =
      tickV20 xs ct ++ (row, []) :: tickV20 ys ct := by
  refine ⟨rfl, ?_⟩
  unfold tickV20
  rw [List.map_append, List.map_cons]
  rfl

/-- C1 counterexample.  In the `app.py` evaluator, after the entry
`{alert: 100, target: 120}` has gone through ticks at prices 100 and 120
(so `status = Closed`, `last_notified_target = 120`), a further tick at 125
fires another `Target` event — the claim says it fires no event. -/
theorem claim_C1_counterexample :
    ((checkRowApp ((checkRowApp rowC1 100 1).1) 120 2).1.status = "Closed") ∧
    (checkRowApp ((checkRowApp ((checkRowApp rowC1 100 1).1) 120 2).1) 125 3).2 =
      [Event.target] := by
  have h1 : checkRowApp rowC1 100 1 =
      (⟨100, 120, 100, 0, 100, 0, some 1, none, "Open", some 0⟩,
        [Event.alert, Event.preAlert]) := by
    norm_num [checkRowApp, alertCondApp, targetCondApp, preAlertCond,
      preTargetCond, crossed, rowC1]
  have h2 : checkRowApp (⟨100, 120, 100, 0, 100, 0, some 1, none, "Open",
      some 0⟩ : RowApp) 120 2 =
      (⟨100, 120, 100, 120, 100, 120, some 1, some 2, "Closed", some 0⟩,
        [Event.target, Event.preTarget]) := by
    norm_num [checkRowApp, alertCondApp, targetCondApp, preAlertCond,
      preTargetCond, crossed, Option.some_ne_none]
  have h3 : checkRowApp (⟨100, 120, 100, 120, 100, 120, some 1, some 2,
      "Closed", some 0⟩ : RowApp) 125 3 =
      (⟨100, 120, 100, 125, 100, 120, some 1, some 3, "Closed", some 0⟩,
        [Event.target]) := by
    norm_num [checkRowApp, alertCondApp, targetCondApp, preAlertCond,
      preTargetCond, crossed, Option.some_ne_none]
  rw [h1]
  constructor
  · rw [h2]
  · rw [h2]
    dsimp only
    rw [h3]

/-- C1 amended.  In the `app.py` evaluator the scenario behaves as claimed
up to the second tick (tick at 100 fires `Alert` with status `Open`, tick
at 120 fires `Target` and sets status `Closed`), but `Closed` is not
terminal: the later tick at 125 fires another `Target`.  In general a
target notification fires exactly when the tick time is after
`added_time`, the target price is positive, and the price crosses the
target strictly further than `last_notified_target` — independently of
`status`. -/
theorem claim_C1_amended :
    (checkRowApp rowC1 100 1).2 = [Event.alert, Event.preAlert] ∧
    (checkRowApp rowC1 100 1).1.status = "Open" ∧
    (checkRowApp (checkRowApp rowC1 100 1).1 120 2).2 =
      [Event.target, Event.preTarget] ∧
    (checkRowApp (checkRowApp rowC1 100 1).1 120 2).1.status = "Closed" ∧
    (checkRowApp (checkRowApp (checkRowApp rowC1 100 1).1 120 2).1 125 3).2 =
      [Event.target] ∧
    ∀ (row : RowApp) (cp ct : ℚ),
      Event.target ∈ (checkRowApp row cp ct).2 ↔
        row.added_time.getD ct < ct ∧ 0 < row.target_price ∧
          crossed row.target_price row.last_notified_target cp := by
  have h1 : checkRowApp rowC1 100 1 =
      (⟨100, 120, 100, 0, 100, 0, some 1, none, "Open", some 0⟩,
        [Event.alert, Event.preAlert]) := by
    norm_num [checkRowApp, alertCondApp, targetCondApp, preAlertCond,
      preTargetCond, crossed, rowC1]
  have h2 : checkRowApp (⟨100, 120, 100, 0, 100, 0, some 1, none, "Open",
      some 0⟩ : RowApp) 120 2 =
      (⟨100, 120, 100, 120, 100, 120, some 1, some 2, "Closed", some 0⟩,
        [Event.target, Event.preTarget]) := by
    norm_num [checkRowApp, alertCondApp, targetCondApp, preAlertCond,
      preTargetCond, crossed, Option.some_ne_none]
  have h3 : checkRowApp (⟨100, 120, 100, 120, 100, 120, some 1, some 2,
      "Closed", some 0⟩ : RowApp) 125 3 =
      (⟨100, 120, 100, 125, 100, 120, some 1, some 3, "Closed", some 0⟩,
        [Event.target]) := by
    norm_num [checkRowApp, alertCondApp, targetCondApp, preAlertCond,
      preTargetCond, crossed, Option.some_ne_none]
  refine ⟨by rw [h1], by rw [h1], ?_, ?_, ?_, ?_⟩
  · rw [h1]
    dsimp only
    rw [h2]
  · rw [h1]
    dsimp only
    rw [h2]
  · rw [h1]
    dsimp only
    rw [h2]
    dsimp only
    rw [h3]
  · intro row cp ct
    rw [mem_checkRowApp_iff]
    simp only [targetCondApp, reduceCtorEq, false_and, false_or, or_false,
      true_and]

/-- C6 counterexample.  Proximity band with `alert_price = 100`: ticks at
98, 99 and then 98 again — the third tick re-fires a `PreAlert` (the marker
then holds 99, and 98 ≠ 99), while the claim says it does not re-fire. -/
theorem claim_C6_counterexample :
    (checkRowApp ((checkRowApp ((checkRowApp rowC6 98 1).1) 99 2).1) 98 3).2 =
      [Event.preAlert] := by
  have h1 : checkRowApp rowC6 98 1 =
      (⟨100, 0, 0, 0, 98, 0, none, none, "Open", some 0⟩, [Event.preAlert]) := by
    norm_num [checkRowApp, alertCondApp, targetCondApp, preAlertCond,
      preTargetCond, crossed, rowC6]
  have h2 : checkRowApp (⟨100, 0, 0, 0, 98, 0, none, none, "Open", some 0⟩ :
      RowApp) 99 2 =
      (⟨100, 0, 0, 0, 99, 0, none, none, "Open", some 0⟩, [Event.preAlert]) := by
    norm_num [checkRowApp, alertCondApp, targetCondApp, preAlertCond,
      preTargetCond, crossed, Option.some_ne_none]
  have h3 : checkRowApp (⟨100, 0, 0, 0, 99, 0, none, none, "Open", some 0⟩ :
      RowApp) 98 3 =
      (⟨100, 0, 0, 0, 98, 0, none, none, "Open", some 0⟩, [Event.preAlert]) := by
    norm_num [checkRowApp, alertCondApp, targetCondApp, preAlertCond,
      preTargetCond, crossed, Option.some_ne_none]
  rw [h1]
  dsimp only
  rw [h2]
  dsimp only
  rw [h3]

/-- C6 amended.  The tick at 98 fires `PreAlert` and sets the marker to 98,
and the tick at 99 fires another `PreAlert` and sets the marker to 99, as
claimed; but the still later tick back at 98 fires `PreAlert` again,
because the marker only remembers the single most recent pre-alert price.
In general a pre-alert fires exactly when the tick time is after
`added_time`, `alert_price` is positive, the price lies in the 3% band and
differs from the current marker value. -/
theorem claim_C6_amended :
    (checkRowApp rowC6 98 1).2 = [Event.preAlert] ∧
    (checkRowApp rowC6 98 1).1.last_notified_pre_alert = 98 ∧
    (checkRowApp (checkRowApp rowC6 98 1).1 99 2).2 = [Event.preAlert] ∧
    (checkRowApp (checkRowApp rowC6 98 1).1 99 2).1.last_notified_pre_alert = 99 ∧
    (checkRowApp (checkRowApp (checkRowApp rowC6 98 1).1 99 2).1 98 3).2 =
      [Event.preAlert] ∧
    ∀ (row : RowApp) (cp ct : ℚ),
      Event.preAlert ∈ (checkRowApp row cp ct).2 ↔
        row.added_time.getD ct < ct ∧ 0 < row.alert_price ∧
          row.alert_price - row.alert_price * (3 / 100) ≤ cp ∧
          cp ≤ row.alert_price + row.alert_price * (3 / 100) ∧
          cp ≠ row.last_notified_pre_alert := by
  have h1 : checkRowApp rowC6 98 1 =
      (⟨100, 0, 0, 0, 98, 0, none, none, "Open", some 0⟩, [Event.preAlert]) := by
    norm_num [checkRowApp, alertCondApp, targetCondApp, preAlertCond,
      preTargetCond, crossed, rowC6]
  have h2 : checkRowApp (⟨100, 0, 0, 0, 98, 0, none, none, "Open", some 0⟩ :
      RowApp) 99 2 =
      (⟨100, 0, 0, 0, 99, 0, none, none, "Open", some 0⟩, [Event.preAlert]) := by
    norm_num [checkRowApp, alertCondApp, targetCondApp, preAlertCond,
      preTargetCond, crossed, Option.some_ne_none]
  have h3 : checkRowApp (⟨100, 0, 0, 0, 99, 0, none, none, "Open", some 0⟩ :
      RowApp) 98 3 =
      (⟨100, 0, 0, 0, 98, 0, none, none, "Open", some 0⟩, [Event.preAlert]) := by
    norm_num [checkRowApp, alertCondApp, targetCondApp, preAlertCond,
      preTargetCond, crossed, Option.some_ne_none]
  refine ⟨by rw [h1], by rw [h1], ?_, ?_, ?_, ?_⟩
  · rw [h1]
    dsimp only
    rw [h2]
  · rw [h1]
    dsimp only
    rw [h2]
  · rw [h1]
    dsimp only
    rw [h2]
    dsimp only
    rw [h3]
  · intro row cp ct
    rw [mem_checkRowApp_iff]
    simp only [preAlertCond, reduceCtorEq, false_and, false_or, or_false,
      true_and]

/-- C10.  In the `app.py` evaluator the alert-price notification is
one-shot: it fires only while `alert_trigger_time` is NULL and firing sets
it to the tick time; once it is non-NULL no evaluation fires an alert or
touches `last_notified_alert` / `alert_trigger_time`; and the target,
pre-alert and pre-target notifications are independent of the guard. -/
theorem claim_C10 (row : RowApp) (cp ct : ℚ) :
    (Event.alert ∈ (checkRowApp row cp ct).2 →
      row.alert_trigger_time = none ∧
        (checkRowApp row cp ct).1.alert_trigger_time = some ct) ∧
    (∀ t0 : ℚ, row.alert_trigger_time = some t0 →
      Event.alert ∉ (checkRowApp row cp ct).2 ∧
        (checkRowApp row cp ct).1.last_notified_alert = row.last_notified_alert ∧
        (checkRowApp row cp ct).1.alert_trigger_time = some t0) ∧
    (∀ o : Option ℚ,
      (Event.target ∈ (checkRowApp { row with alert_trigger_time := o } cp ct).2 ↔
        Event.target ∈ (checkRowApp row cp ct).2) ∧
      (Event.preAlert ∈ (checkRowApp { row with alert_trigger_time := o } cp ct).2 ↔
        Event.preAlert ∈ (checkRowApp row cp ct).2) ∧
      (Event.preTarget ∈ (checkRowApp { row with alert_trigger_time := o } cp ct).2 ↔
        Event.preTarget ∈ (checkRowApp row cp ct).2)) := by
  refine ⟨?_, ?_, ?_⟩
  · intro h
    rw [mem_checkRowApp_iff] at h
    obtain ⟨hlt, hd⟩ := h
    have hA : alertCondApp row cp := by
      rcases hd with ⟨-, hc⟩ | ⟨he, -⟩ | ⟨he, -⟩ | ⟨he, -⟩
      · exact hc
      all_goals exact absurd he (by simp)
    refine ⟨hA.2.1, ?_⟩
    rw [checkRowApp_eq row cp ct hlt]
    simp [hA]
  · intro t0 ht
    have hnA : ¬ alertCondApp row cp := by
      intro hA
      have h1 := hA.2.1
      rw [ht] at h1
      exact Option.noConfusion h1
    refine ⟨?_, ?_, ?_⟩
    · intro h
      rw [mem_checkRowApp_iff] at h
      rcases h.2 with ⟨-, hc⟩ | ⟨he, -⟩ | ⟨he, -⟩ | ⟨he, -⟩
      · exact hnA hc
      all_goals exact absurd he (by simp)
    · by_cases hlt : row.added_time.getD ct < ct
      · rw [checkRowApp_eq row cp ct hlt]
        simp [hnA]
      · rw [checkRowApp_skip row cp ct (not_lt.mp hlt)]
    · by_cases hlt : row.added_time.getD ct < ct
      · rw [checkRowApp_eq row cp ct hlt]
        simp [hnA, ht]
      · rw [checkRowApp_skip row cp ct (not_lt.mp hlt)]
        exact ht
  · intro o
    refine ⟨?_, ?_, ?_⟩ <;>
      rw [mem_checkRowApp_iff, mem_checkRowApp_iff] <;>
      simp [targetCondApp, preAlertCond, preTargetCond]

/-- C10 witness: concrete instantiations of both guarded parts of the
claim. -/
theorem claim_C10_witness :
    (rowC1.alert_trigger_time = none ∧
      (checkRowApp rowC1 100 1).1.alert_trigger_time = some 1) ∧
    (Event.alert ∉ (checkRowApp ⟨100, 0, 0, 0, 0, 0, some 5, none, "Open",
        some 0⟩ 99 7).2 ∧
      (checkRowApp ⟨100, 0, 0, 0, 0, 0, some 5, none, "Open",
        some 0⟩ 99 7).1.last_notified_alert = 0 ∧
      (checkRowApp ⟨100, 0, 0, 0, 0, 0, some 5, none, "Open",
        some 0⟩ 99 7).1.alert_trigger_time = some 5) :=
  ⟨(claim_C10 rowC1 100 1).1
      (by
        rw [mem_checkRowApp_iff]
        exact ⟨by norm_num [rowC1], Or.inl ⟨rfl,
          by norm_num [alertCondApp, crossed, rowC1]⟩⟩),
    (claim_C10 ⟨100, 0, 0, 0, 0, 0, some 5, none, "Open", some 0⟩ 99 7).2.1 5 rfl⟩

/-! ## Idempotence lemmas -/

theorem not_alertCondApp_idem (row : RowApp) (cp ct : ℚ)
    (h : row.added_time.getD ct < ct) :
    ¬ alertCondApp (checkRowApp row cp ct).1 cp := by
  rw [checkRowApp_eq row cp ct h]
  by_cases hA : alertCondApp row cp
  · intro hx
    have h1 : (if alertCondApp row cp then some ct else row.alert_trigger_time) =
        none := hx.2.1
    rw [if_pos hA] at h1
    exact Option.noConfusion h1
  · intro hx
    apply hA
    have h1 : (if alertCondApp row cp then some ct else row.alert_trigger_time) =
        none := hx.2.1
    have h2 : crossed row.alert_price
        (if alertCondApp row cp then cp else row.last_notified_alert) cp := hx.2.2
    rw [if_neg hA] at h1 h2
    exact ⟨hx.1, h1, h2⟩

theorem not_targetCondApp_idem (row : RowApp) (cp ct : ℚ)
    (h : row.added_time.getD ct < ct) :
    ¬ targetCondApp (checkRowApp row cp ct).1 cp := by
  rw [checkRowApp_eq row cp ct h]
  by_cases hT : targetCondApp row cp
  · intro hx
    have h2 : crossed row.target_price
        (if targetCondApp row cp then cp else row.last_notified_target) cp := hx.2
    rw [if_pos hT] at h2
    rcases h2 with ⟨-, hlt⟩ | ⟨-, hlt⟩ <;> exact lt_irrefl cp hlt
  · intro hx
    apply hT
    have h2 : crossed row.target_price
        (if targetCondApp row cp then cp else row.last_notified_target) cp := hx.2
    rw [if_neg hT] at h2
    exact ⟨hx.1, h2⟩

theorem not_preAlertCond_idem (row : RowApp) (cp ct : ℚ)
    (h : row.added_time.getD ct < ct) :
    ¬ preAlertCond (checkRowApp row cp ct).1 cp := by
  rw [checkRowApp_eq row cp ct h]
  by_cases hP : preAlertCond row cp
  · intro hx
    have h2 : cp ≠ (if preAlertCond row cp then cp else row.last_notified_pre_alert) :=
      hx.2.2.2
    rw [if_pos hP] at h2
    exact h2 rfl
  · intro hx
    apply hP
    have h2 : cp ≠ (if preAlertCond row cp then cp else row.last_notified_pre_alert) :=
      hx.2.2.2
    rw [if_neg hP] at h2
    exact ⟨hx.1, hx.2.1, hx.2.2.1, h2⟩

theorem not_preTargetCond_idem (row : RowApp) (cp ct : ℚ)
    (h : row.added_time.getD ct < ct) :
    ¬ preTargetCond (checkRowApp row cp ct).1 cp := by
  rw [checkRowApp_eq row cp ct h]
  by_cases hP : preTargetCond row cp
  · intro hx
    have h2 : cp ≠ (if preTargetCond row cp then cp else row.last_notified_pre_target) :=
      hx.2.2.2
    rw [if_pos hP] at h2
    exact h2 rfl
  · intro hx
    apply hP
    have h2 : cp ≠ (if preTargetCond row cp then cp else row.last_notified_pre_target) :=
      hx.2.2.2
    rw [if_neg hP] at h2
    exact ⟨hx.1, hx.2.1, hx.2.2.1, h2⟩

/-- Re-running the `app.py` evaluator on the already-updated row with the
same price and time fires nothing. -/
theorem checkRowApp_idem (row : RowApp) (cp ct : ℚ) :
    (checkRowApp (checkRowApp row cp ct).1 cp ct).2 = [] := by
  by_cases h : ct ≤ row.added_time.getD ct
  · rw [checkRowApp_skip row cp ct h]
    dsimp only
    rw [checkRowApp_skip row cp ct h]
  · push_neg at h
    rw [List.eq_nil_iff_forall_not_mem]
    intro ev hev
    rw [mem_checkRowApp_iff] at hev
    rcases hev.2 with ⟨-, hc⟩ | ⟨-, hc⟩ | ⟨-, hc⟩ | ⟨-, hc⟩
    · exact not_alertCondApp_idem row cp ct h hc
    · exact not_targetCondApp_idem row cp ct h hc
    · exact not_preAlertCond_idem row cp ct h hc
    · exact not_preTargetCond_idem row cp ct h hc

theorem not_alertCondV1_idem (row : RowV1) (cp : ℚ) :
    ¬ alertCondV1 (checkRowV1 row cp).1 cp := by
  rw [checkRowV1_eq]
  by_cases hA : alertCondV1 row cp
  · intro hx
    have h2 : crossed row.alert_price
        (if alertCondV1 row cp then cp else row.last_notified_alert) cp := hx.2
    rw [if_pos hA] at h2
    rcases h2 with ⟨-, hlt⟩ | ⟨-, hlt⟩ <;> exact lt_irrefl cp hlt
  · intro hx
    apply hA
    have h2 : crossed row.alert_price
        (if alertCondV1 row cp then cp else row.last_notified_alert) cp := hx.2
    rw [if_neg hA] at h2
    exact ⟨hx.1, h2⟩

theorem not_targetCondV1_idem (row : RowV1) (cp : ℚ) :
    ¬ targetCondV1 (checkRowV1 row cp).1 cp := by
  rw [checkRowV1_eq]
  by_cases hT : targetCondV1 row cp
  · intro hx
    have h2 : crossed row.target_price
        (if targetCondV1 row cp then cp else row.last_notified_target) cp := hx.2
    rw [if_pos hT] at h2
    rcases h2 with ⟨-, hlt⟩ | ⟨-, hlt⟩ <;> exact lt_irrefl cp hlt
  · intro hx
    apply hT
    have h2 : crossed row.target_price
        (if targetCondV1 row cp then cp else row.last_notified_target) cp := hx.2
    rw [if_neg hT] at h2
    exact ⟨hx.1, h2⟩

/-- Re-running the `appv1bk.py` evaluator on the already-updated row with
the same price fires nothing. -/
theorem checkRowV1_idem (row : RowV1) (cp : ℚ) :
    (checkRowV1 (checkRowV1 row cp).1 cp).2 = [] := by
  have h1 := not_alertCondV1_idem row cp
  have h2 := not_targetCondV1_idem row cp
  rw [checkRowV1_eq (checkRowV1 row cp).1 cp]
  simp [h1, h2]

/-- A second run of the cooldown evaluator on the updated row never fires a
buy alert: either the first run fired it (setting `alert_triggered`), or
the buy condition was false and stays false. -/
theorem v20_no_buy_second (row : RowV20) (cp ct : ℚ) :
    Event.buyAlert ∉ (checkRowV20 (checkRowV20 row cp ct).1 cp ct).2 := by
  intro hmem
  rw [mem_checkRowV20_buy] at hmem
  obtain ⟨hg2, hb2⟩ := hmem
  by_cases hg : creationGuard row cp ct
  · have hr : checkRowV20 row cp ct = (row, []) := by
      rw [checkRowV20_eq, if_pos hg]
    rw [hr] at hg2
    exact hg2 hg
  · have hr : checkRowV20 row cp ct = checkRowV20Body row cp ct := by
      rw [checkRowV20_eq, if_neg hg]
    rw [hr, checkRowV20Body_eq] at hb2
    by_cases hb : buyCond row cp ct
    · have h1 : (if buyCond row cp ct then true else row.alert_triggered) =
          false := hb2.2.1
      rw [if_pos hb] at h1
      exact Bool.noConfusion h1
    · simp only [if_neg hb] at hb2
      exact hb hb2

/-- A second run of the cooldown evaluator after a run that fired nothing
fires nothing. -/
theorem v20_idem_of_nil (row : RowV20) (cp ct : ℚ)
    (h : (checkRowV20 row cp ct).2 = []) :
    (checkRowV20 (checkRowV20 row cp ct).1 cp ct).2 = [] := by
  by_cases hg : creationGuard row cp ct
  · have hr : checkRowV20 row cp ct = (row, []) := by
      rw [checkRowV20_eq, if_pos hg]
    rw [hr]
    dsimp only
    rw [checkRowV20_eq, if_pos hg]
  · have hb : ¬ buyCond row cp ct := by
      intro hb
      have hmem := (mem_checkRowV20_buy row cp ct).mpr ⟨hg, hb⟩
      rw [h] at hmem
      exact List.not_mem_nil _ hmem
    have hs : ¬ sellCond row cp ct := by
      intro hs
      have hmem := (mem_checkRowV20_sell row cp ct).mpr ⟨hg, hs⟩
      rw [h] at hmem
      exact List.not_mem_nil _ hmem
    have hr : (checkRowV20 row cp ct).1 = row := by
      rw [checkRowV20_eq, if_neg hg, checkRowV20Body_eq]
      dsimp only
      simp only [if_neg hb, if_neg hs]
    rw [hr]
    exact h

/-- With a positive cooldown and a positive evaluation time, a second run
of the cooldown evaluator fires nothing provided the first run fired no
buy alert (a fired sell stamps `last_notified_target := ct`, so its own
cooldown blocks an immediate repeat). -/
theorem v20_idem_of_pos (row : RowV20) (cp ct : ℚ) (hct : 0 < ct)
    (hpos : 0 < row.notification_cooldown)
    (h : Event.buyAlert ∉ (checkRowV20 row cp ct).2) :
    (checkRowV20 (checkRowV20 row cp ct).1 cp ct).2 = [] := by
  by_cases hg : creationGuard row cp ct
  · have hr : checkRowV20 row cp ct = (row, []) := by
      rw [checkRowV20_eq, if_pos hg]
    rw [hr]
    dsimp only
    rw [checkRowV20_eq, if_pos hg]
  · have hb : ¬ buyCond row cp ct := fun hb =>
      h ((mem_checkRowV20_buy row cp ct).mpr ⟨hg, hb⟩)
    by_cases hs : sellCond row cp ct
    · have hr : (checkRowV20 row cp ct).1 =
          { row with last_notified_target := ct } := by
        rw [checkRowV20_eq, if_neg hg, checkRowV20Body_eq]
        dsimp only
        simp only [if_neg hb, if_pos hs]
      rw [hr]
      have hb2 : ¬ buyCond { row with last_notified_target := ct } cp ct := hb
      have hs2 : ¬ sellCond { row with last_notified_target := ct } cp ct := by
        intro hx
        have h4 : row.notification_cooldown ≤
            ct - (if (0 : ℚ) < ct then ct else row.created_at) := hx.2.2.1
        rw [if_pos hct] at h4
        have h5 : row.notification_cooldown ≤ 0 := by linarith
        linarith
      by_cases hg2 : creationGuard { row with last_notified_target := ct } cp ct
      · rw [checkRowV20_eq, if_pos hg2]
      · rw [checkRowV20_eq, if_neg hg2, checkRowV20Body_eq]
        dsimp only
        simp only [if_neg hb2, if_neg hs2]
        rfl
    · have hr : (checkRowV20 row cp ct).1 = row := by
        rw [checkRowV20_eq, if_neg hg, checkRowV20Body_eq]
        dsimp only
        simp only [if_neg hb, if_neg hs]
      rw [hr, checkRowV20_eq, if_neg hg, checkRowV20Body_eq]
      dsimp only
      simp only [if_neg hb, if_neg hs]
      rfl

/-- C4 counterexample.  For a cooldown-policy entry with `alert_price = 0`
all conditions of the claimed firing rule hold at `current = 0`,
`now = 1000` (not triggered, `current ≤ alertPrice + ε`, cooldown elapsed,
creation guard inactive), yet the code fires nothing, because the buy
branch additionally requires `alert_price > 0`. -/
theorem claim_C4_counterexample :
    ¬ creationGuard rowC4zero 0 1000 ∧
    rowC4zero.alert_triggered = false ∧
    (0 : ℚ) ≤ rowC4zero.alert_price + 1 / 100 ∧
    rowC4zero.notification_cooldown ≤ 1000 - rowC4zero.created_at ∧
    (checkRowV20 rowC4zero 0 1000).2 = [] := by
  refine ⟨?_, rfl, ?_, ?_, ?_⟩
  · intro hg
    exact absurd hg.1 (by norm_num [rowC4zero])
  · norm_num [rowC4zero]
  · norm_num [rowC4zero]
  · norm_num [checkRowV20, checkRowV20Body, buyCond, sellCond, rowC4zero]

/-- C4 amended.  In the cooldown evaluator of `shedular.py` / `app6.py`:
the creation guard suppresses the whole tick; outside it a `BuyAlert` fires
exactly when additionally `alert_price > 0` holds together with the
claimed conditions (not triggered, cooldown elapsed since
`lastAlertTime_or_createdAt`, `current ≤ alertPrice + ε`); firing sets
`alert_triggered` and stamps the alert time, so the alert is one-shot; the
concrete `cooldown = 600`, `alertPrice = 50` scenario behaves as claimed. -/
theorem claim_C4_amended :
    (∀ (row : RowV20) (cp ct : ℚ), creationGuard row cp ct →
      checkRowV20 row cp ct = (row, [])) ∧
    (∀ (row : RowV20) (cp ct : ℚ), ¬ creationGuard row cp ct →
      (Event.buyAlert ∈ (checkRowV20 row cp ct).2 ↔
        0 < row.alert_price ∧ row.alert_triggered = false ∧
          row.notification_cooldown ≤
            ct - (if 0 < row.last_notified_alert then row.last_notified_alert
                  else row.created_at) ∧
          cp ≤ row.alert_price + 1 / 100)) ∧
    (∀ (row : RowV20) (cp ct : ℚ), Event.buyAlert ∈ (checkRowV20 row cp ct).2 →
      (checkRowV20 row cp ct).1.alert_triggered = true ∧
        (checkRowV20 row cp ct).1.last_notified_alert = ct) ∧
    (∀ (row : RowV20) (cp ct : ℚ), row.alert_triggered = true →
      Event.buyAlert ∉ (checkRowV20 row cp ct).2) ∧
    checkRowV20 rowC4 (503 / 10) 10 = (rowC4, []) ∧
    (checkRowV20 rowC4 (499 / 10) 700).2 = [Event.buyAlert] ∧
    (checkRowV20 rowC4 (499 / 10) 700).1.alert_triggered = true ∧
    (checkRowV20 (checkRowV20 rowC4 (499 / 10) 700).1 (498 / 10) 800).2 = [] := by
  have h700 : checkRowV20 rowC4 (499 / 10) 700 =
      (⟨50, 60, true, 700, 0, 0, 600⟩, [Event.buyAlert]) := by
    norm_num [checkRowV20, checkRowV20Body, buyCond, sellCond, rowC4]
  refine ⟨?_, ?_, ?_, ?_, ?_, ?_, ?_, ?_⟩
  · intro row cp ct hg
    rw [checkRowV20_eq, if_pos hg]
  · intro row cp ct hg
    rw [mem_checkRowV20_buy]
    simp [hg, buyCond]
  · intro row cp ct hmem
    rw [mem_checkRowV20_buy] at hmem
    obtain ⟨hg, hbc⟩ := hmem
    rw [checkRowV20_eq, if_neg hg, checkRowV20Body_eq]
    constructor <;> simp [hbc]
  · intro row cp ct ht hmem
    rw [mem_checkRowV20_buy] at hmem
    have h1 := hmem.2.2.1
    rw [ht] at h1
    exact Bool.noConfusion h1
  · norm_num [checkRowV20, checkRowV20Body, buyCond, sellCond, creationGuard,
      rowC4]
  · rw [h700]
  · rw [h700]
  · rw [h700]
    dsimp only
    norm_num [checkRowV20, checkRowV20Body, buyCond, sellCond]

/-- C4 witness: concrete instantiations of the guarded parts of the
amended claim. -/
theorem claim_C4_witness :
    checkRowV20 rowC4 (503 / 10) 10 = (rowC4, []) ∧
    Event.buyAlert ∈ (checkRowV20 rowC4 (499 / 10) 700).2 ∧
    Event.buyAlert ∉ (checkRowV20 ⟨50, 60, true, 0, 0, 0, 600⟩ 49 700).2 :=
  ⟨claim_C4_amended.1 rowC4 (503 / 10) 10
      (by norm_num [creationGuard, rowC4, abs_of_pos]),
    (claim_C4_amended.2.1 rowC4 (499 / 10) 700
        (by norm_num [creationGuard, rowC4])).mpr
      (by norm_num [rowC4]),
    claim_C4_amended.2.2.2.1 ⟨50, 60, true, 0, 0, 0, 600⟩ 49 700 rfl⟩

/-- C5.  In the cooldown evaluator a `SellAlert` fires only when the entry
is already triggered, `current ≥ targetPrice − ε`, and the cooldown since
`lastTargetTime_or_createdAt` has elapsed; firing stamps the target time;
`alert_triggered` is never reset (there is no status column to close in
this variant); and once a sell has fired, a later tick after the cooldown
with the price still beyond the bound fires a sell again. -/
theorem claim_C5 (row : RowV20) (cp ct : ℚ) :
    (Event.sellAlert ∈ (checkRowV20 row cp ct).2 →
      row.alert_triggered = true ∧ row.target_price - 1 / 100 ≤ cp ∧
        row.notification_cooldown ≤
          ct - (if 0 < row.last_notified_target then row.last_notified_target
                else row.created_at)) ∧
    (Event.sellAlert ∈ (checkRowV20 row cp ct).2 →
      (checkRowV20 row cp ct).1.last_notified_target = ct) ∧
    (row.alert_triggered = true →
      (checkRowV20 row cp ct).1.alert_triggered = true) ∧
    (∀ cp2 ct2 : ℚ, Event.sellAlert ∈ (checkRowV20 row cp ct).2 → 0 < ct →
      row.notification_cooldown ≤ ct2 - ct → row.target_price - 1 / 100 ≤ cp2 →
      Event.sellAlert ∈ (checkRowV20 (checkRowV20 row cp ct).1 cp2 ct2).2) := by
  refine ⟨?_, ?_, ?_, ?_⟩
  · intro hmem
    rw [mem_checkRowV20_sell] at hmem
    exact ⟨hmem.2.2.1, hmem.2.2.2.2, hmem.2.2.2.1⟩
  · intro hmem
    rw [mem_checkRowV20_sell] at hmem
    obtain ⟨hg, hs⟩ := hmem
    rw [checkRowV20_eq, if_neg hg, checkRowV20Body_eq]
    simp [hs]
  · intro ht
    by_cases hg : creationGuard row cp ct
    · rw [checkRowV20_eq, if_pos hg]
      exact ht
    · rw [checkRowV20_eq, if_neg hg, checkRowV20Body_eq]
      dsimp only
      by_cases hb : buyCond row cp ct
      · simp [hb]
      · simp [hb, ht]
  · intro cp2 ct2 hmem hct hcool hpr
    rw [mem_checkRowV20_sell] at hmem
    obtain ⟨hg, hs⟩ := hmem
    have hb : ¬ buyCond row cp ct := by
      intro hb
      have h1 := hb.2.1
      rw [hs.2.1] at h1
      exact Bool.noConfusion h1
    have hr : (checkRowV20 row cp ct).1 =
        { row with last_notified_target := ct } := by
      rw [checkRowV20_eq, if_neg hg, checkRowV20Body_eq]
      dsimp only
      simp only [if_neg hb, if_pos hs]
    rw [hr, mem_checkRowV20_sell]
    constructor
    · intro hg2
      have h1 : row.alert_triggered = false := hg2.2.1
      rw [hs.2.1] at h1
      exact Bool.noConfusion h1
    · refine ⟨hs.1, hs.2.1, ?_, hpr⟩
      dsimp only
      rw [if_pos hct]
      exact hcool

/-- C5 witness: concrete sell firing, stamping, and post-cooldown
re-firing. -/
theorem claim_C5_witness :
    Event.sellAlert ∈
      (checkRowV20 (checkRowV20 ⟨50, 60, true, 0, 0, 0, 600⟩ 60 700).1
        61 1300).2 :=
  (claim_C5 ⟨50, 60, true, 0, 0, 0, 600⟩ 60 700).2.2.2 61 1300
    (by
      rw [mem_checkRowV20_sell]
      refine ⟨?_, ?_⟩
      · intro hg
        exact Bool.noConfusion hg.2.1
      · refine ⟨by norm_num, rfl, ?_, by norm_num⟩
        norm_num)
    (by norm_num) (by norm_num) (by norm_num)

/-- C8 counterexample.  The cooldown evaluator is not idempotent: for the
entry `{alert: 50, target: 49, cooldown: 600}` at price 49.5, time 700,
the first run fires a `BuyAlert` and the second run on the updated row
(same price, same time) fires a `SellAlert`, not the empty list. -/
theorem claim_C8_counterexample :
    (checkRowV20 rowC8 (99 / 2) 700).2 = [Event.buyAlert] ∧
    (checkRowV20 (checkRowV20 rowC8 (99 / 2) 700).1 (99 / 2) 700).2 =
      [Event.sellAlert] := by
  have h1 : checkRowV20 rowC8 (99 / 2) 700 =
      (⟨50, 49, true, 700, 0, 0, 600⟩, [Event.buyAlert]) := by
    norm_num [checkRowV20, checkRowV20Body, buyCond, sellCond, rowC8]
  constructor
  · rw [h1]
  · rw [h1]
    dsimp only
    norm_num [checkRowV20, checkRowV20Body, buyCond, sellCond]

/-- C8 amended.  The symmetric evaluators (`app.py`, `appv1bk.py`) are
idempotent unconditionally.  The cooldown evaluator re-run fires nothing
when the first run fired nothing; a re-run never fires a buy alert; and
with a positive cooldown and positive evaluation time a re-run fires
nothing provided the first run fired no buy alert — the only failure mode
is a buy alert enabling the sell check of the second run. -/
theorem claim_C8_amended :
    (∀ (row : RowApp) (cp ct : ℚ),
      (checkRowApp (checkRowApp row cp ct).1 cp ct).2 = []) ∧
    (∀ (row : RowV1) (cp : ℚ), (checkRowV1 (checkRowV1 row cp).1 cp).2 = []) ∧
    (∀ (row : RowV20) (cp ct : ℚ), (checkRowV20 row cp ct).2 = [] →
      (checkRowV20 (checkRowV20 row cp ct).1 cp ct).2 = []) ∧
    (∀ (row : RowV20) (cp ct : ℚ),
      Event.buyAlert ∉ (checkRowV20 (checkRowV20 row cp ct).1 cp ct).2) ∧
    (∀ (row : RowV20) (cp ct : ℚ), 0 < ct → 0 < row.notification_cooldown →
      Event.buyAlert ∉ (checkRowV20 row cp ct).2 →
      (checkRowV20 (checkRowV20 row cp ct).1 cp ct).2 = []) :=
  ⟨checkRowApp_idem, checkRowV1_idem, v20_idem_of_nil, v20_no_buy_second,
    v20_idem_of_pos⟩

/-- C8 witness: concrete instantiations of the conditional parts of the
amended claim. -/
theorem claim_C8_witness :
    (checkRowV20 (checkRowV20 rowC4 (503 / 10) 10).1 (503 / 10) 10).2 = [] ∧
    (checkRowV20 (checkRowV20 ⟨50, 60, true, 0, 0, 0, 600⟩ 10 700).1
      10 700).2 = [] :=
  ⟨claim_C8_amended.2.2.1 rowC4 (503 / 10) 10
      (by norm_num [checkRowV20, checkRowV20Body, buyCond, sellCond, rowC4]),
    claim_C8_amended.2.2.2.2 ⟨50, 60, true, 0, 0, 0, 600⟩ 10 700
      (by norm_num) (by norm_num)
      (by
        have h1 : checkRowV20 ⟨50, 60, true, 0, 0, 0, 600⟩ 10 700 =
            (⟨50, 60, true, 0, 0, 0, 600⟩, []) := by
          norm_num [checkRowV20, checkRowV20Body, buyCond, sellCond]
        rw [h1]
        exact List.not_mem_nil _)⟩

end StockAlert
